import Mathlib

/-!
# Verification of the multi-platform price-scraper core

Shallow embedding of the price-comparison scraper found in `app.py`,
`scraper.py`, `services/backendScraper.py` and `services/backendScraperV2.py`.

Python strings are modelled as Lean `String` (sequences of code points);
Python `float` prices are modelled as `ℚ` (every price literal and every
decimal string appearing in the claims is exactly representable, and all the
code does with prices is parse, compare and multiply by small rationals).
Python string primitives (`lower`, `strip`, `split`, slicing, `replace`,
`in`) are re-implemented by structural recursion on the character list so
that every definition evaluates inside the kernel.

HTML documents fetched from the network are modelled abstractly: a fetched
page carries its HTTP status code, its body length, a CSS-select function
from selector strings to the matching container nodes, and the product data
the Myntra JSON extractor would find in the body.  A container node is
modelled by the outcome of the field-extraction helpers run against it
(title element text, price element text, link href, image src), which is the
only way the Python code ever looks at a container.
-/

/-! ## Python string primitives -/

/-- Bool test that `needle` occurs as a contiguous substring of the char list
`hay`; models the Python `needle in hay` test on strings. -/
def strContainsAux (needle : List Char) : List Char → Bool
  | [] => needle.isEmpty
  | c :: rest => needle.isPrefixOf (c :: rest) || strContainsAux needle rest

/-- Python `needle in hay` for strings. -/
def strContains (hay needle : String) : Bool :=
  strContainsAux needle.toList hay.toList

/-- Python `str.strip()`: drop leading and trailing whitespace. -/
def listTrim (l : List Char) : List Char :=
  ((l.dropWhile Char.isWhitespace).reverse.dropWhile Char.isWhitespace).reverse

/-- Python `str.strip()` on `String`. -/
def pyStrip (s : String) : String := String.mk (listTrim s.toList)

/-- Accumulator pass behind `pySplitWs`. -/
def wordsAux : List Char → List Char → List (List Char)
  | [], cur => if cur.isEmpty then [] else [cur.reverse]
  | c :: rest, cur =>
    if c.isWhitespace then
      if cur.isEmpty then wordsAux rest [] else cur.reverse :: wordsAux rest []
    else wordsAux rest (c :: cur)

/-- Python `str.split()` with no argument: split on whitespace runs,
discarding empty pieces. -/
def pySplitWs (s : String) : List String :=
  (wordsAux s.toList []).map String.mk

/-- Python `str.lower()` (ASCII case folding). -/
def pyLower (s : String) : String := String.mk (s.toList.map Char.toLower)

/-- Python `sep.join(parts)`. -/
def strJoin (sep : String) : List String → String
  | [] => ""
  | [x] => x
  | x :: xs => x ++ sep ++ strJoin sep xs

/-- Left-to-right non-overlapping replacement behind `pyReplace`; the fuel
argument (instantiated with the length of the subject) only makes the
recursion structural. -/
def listReplace (pat rep : List Char) : ℕ → List Char → List Char
  | _, [] => []
  | 0, l => l
  | fuel + 1, c :: rest =>
    if pat.isEmpty = false ∧ pat.isPrefixOf (c :: rest) = true then
      rep ++ listReplace pat rep fuel ((c :: rest).drop pat.length)
    else c :: listReplace pat rep fuel rest

/-- Python `s.replace(pat, rep)`. -/
def pyReplace (s pat rep : String) : String :=
  String.mk (listReplace pat.toList rep.toList s.toList.length s.toList)

/-- Python slice `s[:stop]` for a non-negative integer `stop`. -/
def pyTake (s : String) (n : ℕ) : String := String.mk (s.toList.take n)

/-- Python slice `s[:stop]` for an arbitrary integer `stop` (a negative stop
counts from the end of the string). -/
def pyStringSlice (s : String) (stop : ℤ) : String :=
  if 0 ≤ stop then pyTake s stop.toNat
  else pyTake s (s.length - (-stop).toNat)

/-- Python `s.startswith(pre)`. -/
def pyStartsWith (s pre : String) : Bool :=
  pre.toList.isPrefixOf s.toList

/-! ## Price normalizer -/

/-- Value of a list of ASCII digit characters read in base 10. -/
def natOfDigits (l : List Char) : ℕ :=
  l.foldl (fun a c => 10 * a + (c.toNat - 48)) 0

/-- `re.sub(r'[^\d.]', '', s)` / `re.sub(r'[^0-9.]', '', s)` from
`app.py clean_price`, `scraper.py clean_price` and
`backendScraperV2.scrape_amazon`: keep only (ASCII) digits and dots. -/
def keepDigitsDot (l : List Char) : List Char :=
  l.filter (fun c => c.isDigit || c == '.')

/-- Python `float()` applied to a string already stripped to digits and
dots: it succeeds iff the string holds at most one dot and at least one
digit, and yields integer part plus decimal fraction.  (Only meant for, and
only applied to, outputs of `keepDigitsDot`.) -/
def parsePriceFloat (l : List Char) : Option ℚ :=
  if (l.all fun c => c.isDigit || c == '.') = true
      ∧ l.count '.' ≤ 1 ∧ l.any Char.isDigit = true then
    let intPart := l.takeWhile (fun c => c ≠ '.')
    let fracPart := (l.dropWhile (fun c => c ≠ '.')).drop 1
    let d : ℕ := 10 ^ fracPart.length
    some (mkRat (natOfDigits intPart * d + natOfDigits fracPart) d)
  else none

/-- `clean_price` from `app.py` (lines 335-346): empty/falsy text gives 0;
otherwise strip non-digit-non-dot characters, parse as float, and return the
value only when `0 < price < 10000000`, else the sentinel 0.  A parse
failure (the bare `except`) also gives 0. -/
def clean_price (price_text : String) : ℚ :=
  if price_text = "" then 0
  else
    match parsePriceFloat (keepDigitsDot price_text.toList) with
    | some price => if 0 < price ∧ price < 10000000 then price else 0
    | none => 0

/-- `clean_price` from `scraper.py` (lines 142-150): same strip-and-parse,
but the parsed value is returned unconditionally — there is no
`0 < price < 10000000` range check in this variant. -/
def scraper_clean_price (price_text : String) : ℚ :=
  if price_text = "" then 0
  else
    match parsePriceFloat (keepDigitsDot price_text.toList) with
    | some price => price
    | none => 0

/-! ## Category classifier and platform selection (`app.py`) -/

/-- `detect_product_category` from `app.py` (lines 479-520): lower-case and
strip the query, drop price-related stop words, rejoin with single spaces,
then test each category's keyword list for substring occurrence in the
cleaned query, in the fixed order fashion, electronics, grocery; no match
gives "general". -/
def detect_product_category (query : String) : String :=
  let query_lower := pyStrip (pyLower query)
  let remove_words := ["price", "prices", "cost", "cheap", "cheapest",
    "find", "search", "buy", "get"]
  let words := pySplitWs query_lower
  let cleaned_words := words.filter (fun w => !(remove_words.contains w))
  let cleaned_query := strJoin " " cleaned_words
  let fashion_keywords := ["shoes", "shoe", "sneakers", "boots", "sandals",
    "slippers", "heels", "nike", "adidas", "puma", "reebok", "shirt",
    "tshirt", "jeans", "pants", "dress", "jacket", "kurta", "saree"]
  let electronics_keywords := ["phone", "mobile", "iphone", "samsung",
    "oneplus", "laptop", "macbook", "tablet", "ipad", "tv", "television",
    "headphones", "earphones", "camera", "watch", "smartwatch",
    "playstation", "xbox"]
  let grocery_keywords := ["milk", "bread", "rice", "dal", "atta", "oil",
    "ghee", "sugar", "salt", "fruits", "vegetables", "apple", "banana",
    "onion", "potato", "eggs", "biscuits", "chips", "chocolate", "grocery",
    "food"]
  if fashion_keywords.any (fun kw => strContains cleaned_query kw) then
    "fashion"
  else if electronics_keywords.any (fun kw => strContains cleaned_query kw) then
    "electronics"
  else if grocery_keywords.any (fun kw => strContains cleaned_query kw) then
    "grocery"
  else
    "general"

/-- `get_relevant_platforms` from `app.py` (lines 522-536): static
category-to-platform table, with the dictionary-lookup default. -/
def get_relevant_platforms (query : String) : List String :=
  let category := detect_product_category query
  if category = "grocery" then
    ["amazon", "bigbasket", "blinkit", "swiggy_instamart"]
  else if category = "electronics" then
    ["amazon", "flipkart", "croma", "reliance_digital"]
  else if category = "fashion" then
    ["myntra", "ajio", "amazon", "flipkart"]
  else if category = "general" then
    ["amazon", "flipkart", "myntra"]
  else
    ["amazon", "flipkart"]

/-- The classifier applied to a whole call sequence; used to state that its
answers do not depend on call order or prior calls. -/
def classifyTrace (queries : List String) : List String :=
  queries.map detect_product_category

/-! ## `truncate_title` (`scraper.py`) -/

/-- `truncate_title` from `scraper.py` (lines 152-156): a title no longer
than `max_length` is returned unchanged, otherwise the first
`max_length - 3` characters are kept and "..." appended.  (The source
default for `max_length` is 100.) -/
def truncate_title (title : String) (max_length : ℤ) : String :=
  if (title.length : ℤ) ≤ max_length then title
  else pyStringSlice title (max_length - 3) ++ "..."

/-! ## Data model of the `app.py` platform adapter -/

/-- A listing as built by `app.py scrape_platform` (the dict pushed into
`results`, lines 432-438). -/
structure Listing where
  price : ℚ
  title : String
  platform : String
  url : String
  image : Option String
deriving DecidableEq

/-- A product container node, seen through the only operations
`scrape_platform` performs on it: `extract_with_multiple_selectors` for the
title selectors (then `.text`), for the price selectors (then `.text`), for
the link selectors (then `.get('href')`, `none` when the element is missing
or has no href) and for the image selectors (`.get('src') or
.get('data-src')`, `none` when the element is missing or has neither). -/
structure PContainer where
  titleElemText : Option String
  priceElemText : Option String
  linkHref : Option String
  imageSrc : Option String
deriving DecidableEq

/-- One product record as `extract_myntra_json_data` (`app.py` lines
308-333) reads it out of Myntra's embedded JSON: `name`, the discounted
price (`pdp.get('price', {}).get('discounted', 0)`), `brand` and image
URL. -/
structure MyntraProd where
  name : String
  price : ℚ
  brand : String
  image : String
deriving DecidableEq

/-- A fetched search-results page, as far as `scrape_platform` can observe
it: HTTP status code, body length in bytes (`len(response.text)`), the
CSS-select function of the parsed soup (selector string ↦ matching
containers), and the products the Myntra JSON extractor finds in the body
(empty for non-Myntra pages). -/
structure FetchedPage where
  statusCode : ℕ
  bodyLen : ℕ
  select : String → List PContainer
  myntraData : List MyntraProd

/-- A platform entry of `PLATFORM_CONFIGS` (`app.py` lines 36-167),
restricted to the fields the scraping pipeline reads: display name, base
URL, search-URL template, the container selector(s) (a single selector or an
ordered list), and whether the `link` / `image` selector entries are
present and non-null.  (`requires_js`, `credits` and the per-field selector
lists only steer which elements the select functions return and are folded
into the `PContainer` abstraction.) -/
structure PlatformConfig where
  name : String
  base_url : String
  search_url : String
  containerSels : String ⊕ List String
  hasLinkSel : Bool
  hasImageSel : Bool
deriving DecidableEq

/-- `PLATFORM_CONFIGS` from `app.py` lines 36-167 (key, config). -/
def PLATFORM_CONFIGS : List (String × PlatformConfig) :=
  [("amazon",
    { name := "Amazon", base_url := "https://www.amazon.in",
      search_url := "https://www.amazon.in/s?k={query}",
      containerSels := Sum.inl "div[data-component-type=\x22s-search-result\x22]",
      hasLinkSel := true, hasImageSel := true }),
   ("flipkart",
    { name := "Flipkart", base_url := "https://www.flipkart.com",
      search_url := "https://www.flipkart.com/search?q={query}",
      containerSels := Sum.inr ["div._75nlfW", "div._13oc-S", "div._2kHMtA",
        "div._1xHGtK._373qXS"],
      hasLinkSel := true, hasImageSel := true }),
   ("myntra",
    { name := "Myntra", base_url := "https://www.myntra.com",
      search_url := "https://www.myntra.com/{query}",
      containerSels := Sum.inl "li.product-base",
      hasLinkSel := true, hasImageSel := true }),
   ("ajio",
    { name := "Ajio", base_url := "https://www.ajio.com",
      search_url := "https://www.ajio.com/search/?text={query}",
      containerSels := Sum.inr ["div.item.rilrtl-products-list__item", "div.item"],
      hasLinkSel := true, hasImageSel := true }),
   ("croma",
    { name := "Croma", base_url := "https://www.croma.com",
      search_url := "https://www.croma.com/searchB?q={query}",
      containerSels := Sum.inr ["li.product-item", "div.cp-product",
        "div.product-tile"],
      hasLinkSel := true, hasImageSel := true }),
   ("reliance_digital",
    { name := "Reliance Digital", base_url := "https://www.reliancedigital.in",
      search_url := "https://www.reliancedigital.in/search?q={query}",
      containerSels := Sum.inr ["div.sp__product", "div.sp grid"],
      hasLinkSel := true, hasImageSel := true }),
   ("swiggy_instamart",
    { name := "Swiggy Instamart", base_url := "https://www.swiggy.com",
      search_url := "https://www.swiggy.com/instamart/search?query={query}",
      containerSels := Sum.inl "div[data-testid=\x22product-card\x22]",
      hasLinkSel := false, hasImageSel := true }),
   ("blinkit",
    { name := "Blinkit", base_url := "https://blinkit.com",
      search_url := "https://blinkit.com/search?q={query}",
      containerSels := Sum.inl "div.Product__Container",
      hasLinkSel := false, hasImageSel := true }),
   ("bigbasket",
    { name := "BigBasket", base_url := "https://www.bigbasket.com",
      search_url := "https://www.bigbasket.com/ps/?q={query}",
      containerSels := Sum.inr ["div.SKU-Content", "div.PaginateItems___StyledDiv"],
      hasLinkSel := true, hasImageSel := true }),
   ]

/-- `platform_key in PLATFORM_CONFIGS` / `PLATFORM_CONFIGS[platform_key]`. -/
def findConfig (key : String) : Option PlatformConfig :=
  (PLATFORM_CONFIGS.find? (fun kv => kv.1 == key)).map (·.2)

/-- Container discovery for a list of container selectors, `app.py` lines
390-396: walk the selector list in order; the first selector whose
(10-capped) match list is non-empty supplies all the containers and stops
the walk; selectors further down the list are never consulted. -/
def discoverContainers {α : Type} (sel : String → List α) : List String → List α
  | [] => []
  | s :: rest =>
    let found := (sel s).take 10
    if found.isEmpty then discoverContainers sel rest else found

/-- Container discovery over both shapes of the `container` config entry
(`app.py` lines 389-398): a plain selector is selected directly (10-capped),
a list goes through the first-non-empty walk of `discoverContainers`. -/
def containersOf (sel : String → List PContainer) :
    String ⊕ List String → List PContainer
  | Sum.inl s => (sel s).take 10
  | Sum.inr l => discoverContainers sel l

/-- Link resolution, `app.py` lines 415-423: default to the search URL;
an extracted non-empty href is used as-is when absolute, resolved against
the base URL when site-relative, and otherwise ignored. -/
def resolveLink (base_url search_url : String) : Option String → String
  | none => search_url
  | some href =>
    if href = "" then search_url
    else if pyStartsWith href "http" then href
    else if pyStartsWith href "/" then base_url ++ href
    else search_url

/-- The per-container body of the parsing loop of `scrape_platform`
(`app.py` lines 402-444): extract the title (stripped, 200-capped) and the
price (`clean_price` of the price element's text, 0 when the element is
missing); emit a listing only when the title is present and non-empty and
the price is strictly positive, with the link and image fields filled only
when the platform configures those selectors. -/
def parse_item (cfg : PlatformConfig) (search_url : String)
    (c : PContainer) : Option Listing :=
  let title : Option String := c.titleElemText.map (fun t => pyTake (pyStrip t) 200)
  let price : ℚ :=
    match c.priceElemText with
    | some t => clean_price t
    | none => 0
  match title with
  | none => none
  | some tt =>
    if tt ≠ "" ∧ 0 < price then
      some { price := price, title := tt, platform := cfg.name,
             url := if cfg.hasLinkSel then resolveLink cfg.base_url search_url c.linkHref
                    else search_url,
             image := if cfg.hasImageSel then c.imageSrc else none }
    else none

/-- `scrape_platform` from `app.py` (lines 348-457) as a function of the
fetched page: unknown platform keys bail out with `[]`; a non-200 status is
not parsed; Myntra first tries the embedded-JSON products (10-capped, titles
`brand name`-joined and 200-capped) and only falls back to HTML parsing when
that finds nothing; HTML parsing runs container discovery and the
per-container loop.  Request/timeout/connection exceptions during the fetch
are caught and also produce `[]`; they are modelled by the caller handing in
a page with a non-200 status. -/
def scrape_platform (key query : String) (page : FetchedPage) : List Listing :=
  match findConfig key with
  | none => []
  | some cfg =>
    let search_url := pyReplace cfg.search_url "{query}" (pyReplace query " " "+")
    if page.statusCode = 200 then
      let json_results : List Listing :=
        if key = "myntra" then
          (page.myntraData.take 10).map (fun prod =>
            { price := prod.price,
              title := pyTake (prod.brand ++ " " ++ prod.name) 200,
              platform := cfg.name, url := search_url,
              image := some prod.image })
        else []
      if json_results.isEmpty then
        (containersOf page.select cfg.containerSels).filterMap
          (parse_item cfg search_url)
      else json_results
    else []

/-- `scrape_all_platforms` from `app.py` (lines 459-475): default the
platform list from the category table when empty, then scrape the platforms
sequentially, dropping the results of any platform whose scrape raised
(`outcome p = .error e`) and concatenating the rest.  The per-platform
outcome (the value returned by, or the exception escaping from, the
`scrape_platform` call) is passed in as a function. -/
def scrape_all_platforms (query : String)
    (outcome : String → Except String (List Listing))
    (platforms : List String) : List Listing :=
  let ps := if platforms.isEmpty then get_relevant_platforms query else platforms
  ps.foldl (fun acc p =>
    match outcome p with
    | Except.ok rs => acc ++ rs
    | Except.error _ => acc) []

/-! ## `backendScraperV2.py`: Amazon adapter with estimated-price fallback -/

/-- `_get_realistic_price` from `backendScraperV2.py` (lines 265-290): a
keyword-to-base-price table over the lowered query; the final default draws
`random.randint(0, 15000)`, modelled by the explicit draw `randInt`
(reduced mod 15001). -/
def get_realistic_price (query : String) (randInt : ℕ) : ℚ :=
  let q := pyLower query
  if strContains q "iphone 15" then 79900
  else if strContains q "iphone 14" then 69900
  else if strContains q "samsung galaxy s24" then 74999
  else if strContains q "macbook" then 114900
  else if strContains q "laptop" then 45000
  else if strContains q "airpods" then 24900
  else if strContains q "headphones" then 8000
  else if strContains q "nike shoes" then 7000
  else if strContains q "adidas" then 6500
  else if strContains q "jeans" then 2500
  else if strContains q "shirt" then 1500
  else if strContains q "almonds" then 800
  else if strContains q "cashews" then 1200
  else if strContains q "milk" then 60
  else if strContains q "bread" then 40
  else 5000 + (randInt % 15001)

/-- An Amazon search-result container as `backendScraperV2.scrape_amazon`
observes it: the stripped text of the title element
(`h2.a-size-mini` falling back to `span.a-size-medium`), and the stripped
text of the price element (`span.a-price-whole` falling back to
`span.a-offscreen`); `none` when no element matched. -/
structure V2Container where
  titleText : Option String
  priceText : Option String
deriving DecidableEq

/-- The `Product` dataclass of `backendScraperV2.py` (lines 22-36),
projected to its deterministic fields: `id`, `title`, `price`, `platform`.
The dataclass carries no field that could flag a product as synthetic or
estimated.  (`image`, `url`, `rating`, `reviews`, `availability`,
`delivery`, `seller`, `original_price` and `discount` are dropped: they are
either document-derived strings or fresh random draws, and no claim reads
them.) -/
structure V2Product where
  id : String
  title : String
  price : ℚ
  platform : String
deriving DecidableEq

/-- The per-container body of `backendScraperV2.scrape_amazon`
(lines 79-132): a missing title element is replaced by the synthetic title
`"{query} - Amazon Product {i+1}"`; a found price element is stripped to
digits and dots and parsed (a parse failure raises and the `except` skips
the container); a missing price element is replaced by
`_get_realistic_price(query) * (0.9 + random.random() * 0.2)`, with the
`random.random()` draw passed in as `r`.  The emitted product carries no
marker telling the two price origins apart. -/
def v2_parse_amazon_item (query : String) (i : ℕ) (r : ℚ) (randInt : ℕ)
    (c : V2Container) : Option V2Product :=
  let title : String :=
    match c.titleText with
    | some t => t
    | none => query ++ " - Amazon Product " ++ toString (i + 1)
  let price? : Option ℚ :=
    match c.priceText with
    | some t => parsePriceFloat (keepDigitsDot t.toList)
    | none => some (get_realistic_price query randInt * (9 / 10 + r * (2 / 10)))
  match price? with
  | none => none
  | some price =>
    some { id := "amazon-" ++ toString (i + 1), title := pyTake title 100,
           price := price, platform := "Amazon India" }

/-! ## `scraper.py`: cross-platform merge, sort and cheapest-flagging -/

/-- A product dict as built by the `scraper.py` per-platform scrapers,
restricted to the fields the merge logic reads and writes: `price`,
`title`, `platform`, and the `is_cheapest` / `badge` / `highlight` keys that
`_async_scrape_all` adds to the winner (absent, i.e. `false` / `none`, on
every other product). -/
structure SProduct where
  title : String
  price : ℚ
  platform : String
  is_cheapest : Bool := false
  badge : Option String := none
  highlight : Bool := false
deriving DecidableEq

/-- The merge step of `_async_scrape_all` (`scraper.py` lines 103-126) as a
function of the per-platform result lists: concatenate, keep the products
with `price > 0`, sort ascending by price, and mark the first product of
the sorted list as cheapest. -/
def async_scrape_all_products (platformResults : List (List SProduct)) :
    List SProduct :=
  let all_products := platformResults.flatten
  let valid_products := all_products.filter (fun p => decide (0 < p.price))
  let sorted := valid_products.mergeSort (fun a b => decide (a.price ≤ b.price))
  match sorted with
  | [] => []
  | h :: t =>
    { h with is_cheapest := true, badge := some "CHEAPEST!", highlight := true } :: t

/-- The `cheapest` field of the `_async_scrape_all` result dict
(`scraper.py` line 136): the head of the marked, sorted product list. -/
def async_scrape_all_cheapest (platformResults : List (List SProduct)) :
    Option SProduct :=
  (async_scrape_all_products platformResults).head?

/-! ## `app.py` `/scrape/prices` endpoint -/

/-- Platform resolution of `scrape_prices_endpoint` (`app.py` lines
596-602): an explicitly requested non-empty platform list wins over the
category table, and the outcome is silently clamped to its first 3 entries
when longer. -/
def resolve_platforms (custom_platforms : Option (List String))
    (product_name : String) : List String :=
  let platforms :=
    match custom_platforms with
    | some l => if l.isEmpty then get_relevant_platforms product_name else l
    | none => get_relevant_platforms product_name
  if platforms.length > 3 then platforms.take 3 else platforms

/-- The response body of `scrape_prices_endpoint` (`app.py` lines 616-627),
without the wall-clock `scraping_time` and `timestamp` fields. -/
structure ScrapeResponse where
  success : Bool
  products : List Listing
  product_searched : String
  category : String
  platforms_searched : List String
  platforms_with_results : List String
  total_results : ℕ
  cheapest : Option Listing

/-- `scrape_prices_endpoint` from `app.py` (lines 577-640) as a function of
the request fields and of the per-platform scrape outcomes: missing/blank
`product_name` is a 400 with no result body; otherwise classify, resolve
and clamp the platform list, collect the listings, sort ascending by price
and answer 200.  `platforms_with_results` is `list(set(...))` in the
source, whose iteration order is unspecified; it is modelled as
first-occurrence deduplication.  -/
def scrape_prices_endpoint (product_name_raw : String)
    (custom_platforms : Option (List String))
    (outcome : String → Except String (List Listing)) :
    ℕ × Option ScrapeResponse :=
  let product_name := pyStrip product_name_raw
  if product_name = "" then (400, none)
  else
    let category := detect_product_category product_name
    let platforms := resolve_platforms custom_platforms product_name
    let products := scrape_all_platforms product_name outcome platforms
    let sorted := products.mergeSort (fun a b => decide (a.price ≤ b.price))
    (200, some
      { success := decide (0 < sorted.length),
        products := sorted,
        product_searched := product_name,
        category := category,
        platforms_searched := platforms,
        platforms_with_results := (sorted.map (·.platform)).eraseDups,
        total_results := sorted.length,
        cheapest := sorted.head? })

/-- Concrete per-platform result lists used to exercise the merge logic:
one platform returns prices 120 and 95, another returns 200. -/
def demoPlatformLists : List (List SProduct) :=
  [[{ title := "a", price := 120, platform := "P1" },
    { title := "b", price := 95, platform := "P1" }],
   [{ title := "c", price := 200, platform := "P2" }]]

/-- The 95-rupee product of `demoPlatformLists` as the merge logic marks
it. -/
def demoCheapest : SProduct :=
  { title := "b", price := 95, platform := "P1", is_cheapest := true,
    badge := some "CHEAPEST!", highlight := true }

/-! ## Helper lemmas -/

/-- `clean_price` only ever returns 0 or a value in the open sanity
interval. -/
theorem clean_price_range (s : String) :
    clean_price s = 0 ∨ (0 < clean_price s ∧ clean_price s < 10000000) := by
  unfold clean_price
  split
  · exact Or.inl rfl
  · split
    · rename_i price _
      by_cases h : 0 < price ∧ price < 10000000
      · rw [if_pos h]; exact Or.inr h
      · simp [h]
    · exact Or.inl rfl

/-- Sorting with the Boolean price comparison yields a price-sorted list. -/
theorem mergeSort_pairwise_price {α : Type} (f : α → ℚ) (l : List α) :
    (l.mergeSort (fun a b => decide (f a ≤ f b))).Pairwise
      (fun a b => f a ≤ f b) := by
  have htrans : ∀ a b c : α, decide (f a ≤ f b) = true →
      decide (f b ≤ f c) = true → decide (f a ≤ f c) = true := by
    intro a b c hab hbc
    simp only [decide_eq_true_eq] at hab hbc ⊢
    exact le_trans hab hbc
  have htotal : ∀ a b : α, (decide (f a ≤ f b) || decide (f b ≤ f a)) = true := by
    intro a b
    simp only [Bool.or_eq_true, decide_eq_true_eq]
    exact le_total (f a) (f b)
  have h := List.sorted_mergeSort htrans htotal l
  exact h.imp (fun hab => of_decide_eq_true hab)

/-- Unfolding the sequential collection loop of `scrape_all_platforms`:
every platform contributes exactly its own successful results, an erroring
platform contributes nothing. -/
theorem scrape_collect_loop (outcome : String → Except String (List Listing)) :
    ∀ (ps : List String) (acc : List Listing),
      ps.foldl (fun acc p =>
        match outcome p with
        | Except.ok rs => acc ++ rs
        | Except.error _ => acc) acc =
      acc ++ (ps.map (fun p => ((outcome p).toOption).getD [])).flatten := by
  intro ps
  induction ps with
  | nil => intro acc; simp
  | cons p ps ih =>
    intro acc
    cases h : outcome p <;>
      simp [List.foldl_cons, h, ih, List.append_assoc, Except.toOption]

/-! ## C2: price normalizer contract -/

/-- **C2 counterexample.** The claim asserts the normalizer returns the
parsed value only when it lies strictly between 0 and 10,000,000 and the
sentinel 0 otherwise; `scraper.py`'s `clean_price` applies no such bound:
on "20000000" it returns 20000000.0, not the sentinel. -/
theorem scraper_clean_price_breaks_range_contract :
    scraper_clean_price "20000000" = 20000000 ∧
      ¬ scraper_clean_price "20000000" < 10000000 ∧
      scraper_clean_price "20000000" ≠ 0 := by
  refine ⟨by decide, by decide, by decide⟩

/-- **C2** (amended): `app.py`'s `clean_price` satisfies the full contract —
strip every character that is not a digit or a dot, parse, accept exactly
the values strictly between 0 and 10,000,000, return the sentinel 0
otherwise and on unparseable or empty input, with
`clean_price "₹1,23,456.00" = 123456.0` — while `scraper.py`'s `clean_price`
strips and parses identically but returns any parsed value unconditionally,
without the range check. -/
theorem clean_price_contract :
    (∀ s p, parsePriceFloat (keepDigitsDot s.toList) = some p →
      (0 < p ∧ p < 10000000 → clean_price s = p) ∧
      (¬ (0 < p ∧ p < 10000000) → clean_price s = 0)) ∧
    (∀ s, parsePriceFloat (keepDigitsDot s.toList) = none → clean_price s = 0) ∧
    clean_price "₹1,23,456.00" = 123456 ∧
    clean_price "" = 0 ∧
    clean_price "free" = 0 ∧
    (∀ s p, parsePriceFloat (keepDigitsDot s.toList) = some p →
      scraper_clean_price s = p) := by
  have hempty : parsePriceFloat (keepDigitsDot ("" : String).toList) = none := by
    decide
  refine ⟨?_, ?_, by decide, by decide, by decide, ?_⟩
  · intro s p hp
    by_cases hs : s = ""
    · rw [hs] at hp; rw [hempty] at hp; exact absurd hp (by simp)
    · constructor
      · intro hrange
        simp only [clean_price, if_neg hs, hp, if_pos hrange]
      · intro hrange
        simp only [clean_price, if_neg hs, hp, if_neg hrange]
  · intro s hp
    by_cases hs : s = ""
    · simp [clean_price, hs]
    · simp only [clean_price, if_neg hs, hp]
  · intro s p hp
    by_cases hs : s = ""
    · rw [hs] at hp; rw [hempty] at hp; exact absurd hp (by simp)
    · simp only [scraper_clean_price, if_neg hs, hp]

/-- **C2 witness**: the contract applied to the concrete input "₹54". -/
theorem clean_price_contract_witness : clean_price "₹54" = 54 :=
  (clean_price_contract.1 "₹54" 54 (by decide)).1 (by decide)

/-! ## C9: the category classifier is deterministic and pure -/

/-- **C9.** `detect_product_category` is a pure function of its query alone
(in the embedding it takes no other argument, mirroring the source, which
reads only its parameter and function-local constant tables): in any call
sequence, the answer for a query is the same fixed value regardless of the
calls made before or after it, and any two call sequences agree on their
common queries. -/
theorem category_classifier_deterministic_pure :
    ∀ (pre post : List String) (q : String),
      (classifyTrace (pre ++ q :: post))[pre.length]? =
        some (detect_product_category q) := by
  intro pre post q
  rw [classifyTrace, List.map_append, List.map_cons,
    List.getElem?_append_right (by simp)]
  simp

/-! ## C10: `truncate_title` stays within `max_length` -/

/-- **C10.** For `max_length ≥ 3`, `truncate_title` returns the title
unchanged when it fits, and otherwise a string of exactly `max_length`
characters obtained as a prefix of `max_length - 3` characters followed by
"..."; in both cases the result never exceeds `max_length` characters. -/
theorem truncate_title_bounded :
    ∀ (title : String) (m : ℤ), 3 ≤ m →
      ((title.length : ℤ) ≤ m → truncate_title title m = title) ∧
      (m < (title.length : ℤ) →
        ((truncate_title title m).length : ℤ) = m ∧
        ∃ u, truncate_title title m = u ++ "..." ∧ (u.length : ℤ) = m - 3) ∧
      ((truncate_title title m).length : ℤ) ≤ m := by
  intro title m hm
  by_cases hle : (title.length : ℤ) ≤ m
  · refine ⟨fun _ => ?_, fun hgt => absurd hle (by omega), ?_⟩
    · rw [truncate_title, if_pos hle]
    · rw [truncate_title, if_pos hle]; exact hle
  · have hgt : m < (title.length : ℤ) := by omega
    have hslice : (pyStringSlice title (m - 3)).length = (m - 3).toNat := by
      rw [pyStringSlice, if_pos (by omega : (0 : ℤ) ≤ m - 3)]
      show (String.mk (title.toList.take (m - 3).toNat)).length = (m - 3).toNat
      have htl : title.toList.length = title.length := rfl
      have hdl : title.toList.length = title.data.length := rfl
      simp only [String.length, List.length_take]
      omega
    have hres : truncate_title title m = pyStringSlice title (m - 3) ++ "..." := by
      rw [truncate_title, if_neg hle]
    have hlen : ((truncate_title title m).length : ℤ) = m := by
      rw [hres, String.length_append, hslice]
      have : ("..." : String).length = 3 := rfl
      rw [this]
      omega
    exact ⟨fun h => absurd h (by omega), fun _ =>
      ⟨hlen, pyStringSlice title (m - 3), hres, by rw [hslice]; omega⟩,
      by omega⟩

/-- **C10 witness**: the bound applied to the concrete title "abcdefgh"
with `max_length = 6`. -/
theorem truncate_title_bounded_witness :
    ((truncate_title "abcdefgh" 6).length : ℤ) ≤ 6 ∧
      truncate_title "abcdefgh" 6 = "abc..." :=
  ⟨(truncate_title_bounded "abcdefgh" 6 (by decide)).2.2, by decide⟩

/-! ## C5: the first container selector with a match wins outright -/

/-- **C5.** When the container selector configuration is a list, the
selectors are tried in order and the first whose (10-capped) match list is
non-empty supplies all the containers — the walk stops there, so every
later selector is never consulted (the result does not depend on the tail
at all); a selector without matches just passes control to the next one. -/
theorem first_matching_container_selector_wins :
    (∀ (α : Type) (sel : String → List α) (s : String) (rest : List String),
      ((sel s).take 10).isEmpty = false →
      discoverContainers sel (s :: rest) = (sel s).take 10) ∧
    (∀ (α : Type) (sel : String → List α) (s : String) (rest : List String),
      ((sel s).take 10).isEmpty = true →
      discoverContainers sel (s :: rest) = discoverContainers sel rest) := by
  constructor
  · intro α sel s rest h
    rw [discoverContainers, if_neg (by simp [h])]
  · intro α sel s rest h
    rw [discoverContainers, if_pos h]

/-- **C5 witness**: selector set #1 yields zero containers, set #2 yields
3 containers, set #3 would yield 4 — the adapter uses set #2 only, and the
result provably never looks at set #3. -/
theorem first_matching_container_selector_wins_witness :
    discoverContainers
      (fun t => if t = "s2" then [1, 2, 3] else if t = "s3" then [4, 5, 6, 7]
        else ([] : List ℕ))
      ["s1", "s2", "s3"] = [1, 2, 3] := by
  rw [(first_matching_container_selector_wins).2 ℕ
    (fun t => if t = "s2" then [1, 2, 3] else if t = "s3" then [4, 5, 6, 7]
      else ([] : List ℕ)) "s1" ["s2", "s3"] (by decide)]
  rw [(first_matching_container_selector_wins).1 ℕ
    (fun t => if t = "s2" then [1, 2, 3] else if t = "s3" then [4, 5, 6, 7]
      else ([] : List ℕ)) "s2" ["s3"] (by decide)]
  decide

/-! ## C1: provenance of emitted listing prices -/

/-- **C1 counterexample.** In `backendScraperV2.scrape_amazon`, a container
with a title but no price element still yields an emitted product: its
price is the estimated `_get_realistic_price` value times the random factor
(here the draw 0, so `60 * 0.9 = 54` for the query "milk"), not a price
extracted from the document, and the `Product` dataclass carries no field
flagging it as synthetic. -/
theorem v2_scrape_amazon_emits_estimated_price :
    (V2Container.mk (some "Amul Taaza Milk") none).priceText = none ∧
    v2_parse_amazon_item "milk" 0 0 0 (V2Container.mk (some "Amul Taaza Milk") none) =
      some { id := "amazon-1", title := "Amul Taaza Milk", price := 54,
             platform := "Amazon India" } := by
  refine ⟨rfl, ?_⟩
  have h60 : get_realistic_price "milk" 0 = 60 := by decide
  have htake : pyTake "Amul Taaza Milk" 100 = "Amul Taaza Milk" := by decide
  simp only [v2_parse_amazon_item, h60, htake]
  norm_num
  decide

/-- **C1** (amended): in `app.py`'s `scrape_platform` HTML parsing loop, a
listing is emitted only when a title element was extracted (and strips to a
non-empty string) and a price element was extracted whose text normalizes
to a strictly positive price (hence also below the 10,000,000 ceiling) —
partial extractions are discarded.  `backendScraperV2.scrape_amazon`,
however, emits an unflagged product with an estimated price when the price
element is missing (the counterexample above), so the repository-wide claim
fails. -/
theorem scrape_platform_emits_only_extracted_positive_prices
    (cfg : PlatformConfig) (search_url : String) (c : PContainer) (l : Listing)
    (h : parse_item cfg search_url c = some l) :
    (∃ t, c.titleElemText = some t ∧ l.title = pyTake (pyStrip t) 200 ∧
      l.title ≠ "") ∧
    (∃ pt, c.priceElemText = some pt ∧ l.price = clean_price pt) ∧
    0 < l.price ∧ l.price < 10000000 := by
  unfold parse_item at h
  cases htitle : c.titleElemText with
  | none => rw [htitle] at h; exact absurd h (by simp)
  | some t =>
    rw [htitle] at h
    simp only [Option.map] at h
    cases hprice : c.priceElemText with
    | none =>
      rw [hprice] at h
      rw [if_neg (by simp)] at h
      exact absurd h (by simp)
    | some pt =>
      rw [hprice] at h
      by_cases hcond : pyTake (pyStrip t) 200 ≠ "" ∧ 0 < clean_price pt
      · rw [if_pos hcond] at h
        obtain ⟨hne, hpos⟩ := hcond
        have hl := (Option.some.inj h).symm
        subst hl
        refine ⟨⟨t, rfl, rfl, hne⟩, ⟨pt, rfl, rfl⟩, hpos, ?_⟩
        rcases clean_price_range pt with h0 | ⟨_, hub⟩
        · rw [h0] at hpos; exact absurd hpos (by norm_num)
        · exact hub
      · rw [if_neg hcond] at h
        exact absurd h (by simp)

/-- **C1 witness**: the amended invariant applied to a concrete container on
a concrete platform configuration. -/
theorem scrape_platform_emits_only_extracted_positive_prices_witness :
    (∃ t, (PContainer.mk (some "Pen") (some "₹5") none none).titleElemText = some t ∧
      ("Pen" : String) = pyTake (pyStrip t) 200 ∧ ("Pen" : String) ≠ "") ∧
    (∃ pt, (PContainer.mk (some "Pen") (some "₹5") none none).priceElemText = some pt ∧
      (5 : ℚ) = clean_price pt) ∧
    (0 : ℚ) < 5 ∧ (5 : ℚ) < 10000000 :=
  scrape_platform_emits_only_extracted_positive_prices
    { name := "Croma", base_url := "https://www.croma.com",
      search_url := "https://www.croma.com/searchB?q={query}",
      containerSels := Sum.inl "li.product-item",
      hasLinkSel := false, hasImageSel := false }
    "https://www.croma.com/searchB?q=pen"
    (PContainer.mk (some "Pen") (some "₹5") none none)
    { price := 5, title := "Pen", platform := "Croma",
      url := "https://www.croma.com/searchB?q=pen", image := none }
    (by decide)

/-! ## C3: merged results are price-sorted with the cheapest at index 0 -/

/-- **C3.** The merged cross-platform product list of
`scraper.py _async_scrape_all` is sorted ascending by price; whenever it is
non-empty, its first element carries the `is_cheapest` mark, is the
reported `cheapest`, and has minimal price.  Likewise, every 200-response
of `app.py`'s `/scrape/prices` endpoint has its products sorted ascending
by price with `cheapest` equal to the head of that list. -/
theorem merged_results_sorted_cheapest_first :
    (∀ lists : List (List SProduct),
      (async_scrape_all_products lists).Pairwise (fun a b => a.price ≤ b.price)) ∧
    (∀ (lists : List (List SProduct)) (h : SProduct) (t : List SProduct),
      async_scrape_all_products lists = h :: t →
      h.is_cheapest = true ∧ async_scrape_all_cheapest lists = some h ∧
      ∀ p ∈ h :: t, h.price ≤ p.price) ∧
    (∀ raw custom outcome status resp,
      scrape_prices_endpoint raw custom outcome = (status, some resp) →
      resp.products.Pairwise (fun a b => a.price ≤ b.price) ∧
      resp.cheapest = resp.products.head?) := by
  have hpair : ∀ lists : List (List SProduct),
      (async_scrape_all_products lists).Pairwise
        (fun a b => a.price ≤ b.price) := by
    intro lists
    simp only [async_scrape_all_products]
    cases hs : (lists.flatten.filter (fun p => decide (0 < p.price))).mergeSort
        (fun a b => decide (a.price ≤ b.price)) with
    | nil => simp
    | cons h0 t0 =>
      have hp := mergeSort_pairwise_price SProduct.price
        (lists.flatten.filter (fun p => decide (0 < p.price)))
      rw [hs] at hp
      rcases List.pairwise_cons.mp hp with ⟨hall, ht⟩
      exact List.pairwise_cons.mpr ⟨fun x hx => hall x hx, ht⟩
  refine ⟨hpair, ?_, ?_⟩
  · intro lists h t heq
    have hp := hpair lists
    rw [heq] at hp
    rcases List.pairwise_cons.mp hp with ⟨hall, -⟩
    have hmin : ∀ p ∈ h :: t, h.price ≤ p.price := by
      intro p hp'
      rcases List.mem_cons.mp hp' with rfl | hmem
      · exact le_refl _
      · exact hall p hmem
    refine ⟨?_, ?_, hmin⟩
    · revert heq
      simp only [async_scrape_all_products]
      cases hs : (lists.flatten.filter (fun p => decide (0 < p.price))).mergeSort
          (fun a b => decide (a.price ≤ b.price)) with
      | nil => intro heq; exact absurd heq (by simp)
      | cons h0 t0 =>
        intro heq
        injection heq with hh ht'
        rw [← hh]
    · rw [async_scrape_all_cheapest, heq]
      rfl
  · intro raw custom outcome status resp
    simp only [scrape_prices_endpoint]
    by_cases hname : pyStrip raw = ""
    · rw [if_pos hname]
      intro heq
      exact absurd (congrArg Prod.snd heq) (by simp)
    · rw [if_neg hname]
      intro heq
      have hresp := congrArg Prod.snd heq
      simp only at hresp
      have hr := Option.some.inj hresp
      subst hr
      constructor
      · exact mergeSort_pairwise_price Listing.price _
      · rfl

unseal List.merge List.mergeSort in
/-- **C3 witness**: platforms contributing prices [120, 95] and [200] merge
to the sorted list [95, 120, 200], with the 95 listing marked and reported
cheapest. -/
theorem merged_results_sorted_cheapest_first_witness :
    (async_scrape_all_products demoPlatformLists).map (fun p => p.price) =
        [95, 120, 200] ∧
    async_scrape_all_cheapest demoPlatformLists = some demoCheapest ∧
    demoCheapest.is_cheapest = true ∧
    ∀ p ∈ async_scrape_all_products demoPlatformLists,
      demoCheapest.price ≤ p.price := by
  have heq : async_scrape_all_products demoPlatformLists =
      demoCheapest ::
        [{ title := "a", price := 120, platform := "P1" },
         { title := "c", price := 200, platform := "P2" }] := by decide
  have h := merged_results_sorted_cheapest_first.2.1 demoPlatformLists
    demoCheapest
    [{ title := "a", price := 120, platform := "P1" },
     { title := "c", price := 200, platform := "P2" }] heq
  refine ⟨by decide, h.2.1, h.1, ?_⟩
  rw [heq]
  exact h.2.2

/-! ## C4: zero listings is a successful 200 with empty products -/

/-- **C4.** Whenever the (non-blank) search collects zero listings across
all platforms, the endpoint answers HTTP 200 — not an error status — with
`products = []`, `cheapest = none` and `success = false`. -/
theorem zero_results_is_http_200_success_false :
    ∀ raw custom outcome,
      pyStrip raw ≠ "" →
      scrape_all_platforms (pyStrip raw) outcome
        (resolve_platforms custom (pyStrip raw)) = [] →
      scrape_prices_endpoint raw custom outcome =
        (200, some
          { success := false, products := [],
            product_searched := pyStrip raw,
            category := detect_product_category (pyStrip raw),
            platforms_searched := resolve_platforms custom (pyStrip raw),
            platforms_with_results := [], total_results := 0,
            cheapest := none }) := by
  intro raw custom outcome hname hempty
  simp only [scrape_prices_endpoint, if_neg hname]
  rw [hempty]
  simp [List.mergeSort_nil, List.eraseDups, List.eraseDups.loop]

/-- **C4 witness**: the degenerate search for "milk" where every platform
returns no listings. -/
theorem zero_results_is_http_200_success_false_witness :
    scrape_prices_endpoint "milk" none (fun _ => Except.ok []) =
      (200, some
        { success := false, products := [],
          product_searched := pyStrip "milk",
          category := detect_product_category (pyStrip "milk"),
          platforms_searched := resolve_platforms none (pyStrip "milk"),
          platforms_with_results := [], total_results := 0,
          cheapest := none }) :=
  zero_results_is_http_200_success_false "milk" none (fun _ => Except.ok [])
    (by decide) (by decide)

/-! ## C6: what counts as a successful fetch -/

/-- **C6 counterexample.** The claim requires a successful fetch to have
both status 200 and a body above a minimum size threshold (e.g. 1000
bytes), with failing responses never parsed.  The code checks only the
status: a 200 response whose body is 10 bytes long is parsed and
contributes a listing. -/
theorem small_body_200_response_is_parsed :
    scrape_platform "croma" "pen"
      { statusCode := 200, bodyLen := 10,
        select := fun _ => [PContainer.mk (some "Pen") (some "₹5") none none],
        myntraData := [] } =
      [{ price := 5, title := "Pen", platform := "Croma",
         url := "https://www.croma.com/searchB?q=pen", image := none }] ∧
    (10 : ℕ) ≤ 1000 := by
  exact ⟨by decide, by decide⟩

/-- **C6** (amended): a fetch is treated as successful exactly when the
response has HTTP status 200; there is no body-size criterion — a non-200
response contributes zero listings, and the outcome is entirely independent
of the body length. -/
theorem fetch_success_requires_only_status_200 :
    (∀ key query page, page.statusCode ≠ 200 →
      scrape_platform key query page = []) ∧
    (∀ key query page n,
      scrape_platform key query
        { statusCode := page.statusCode, bodyLen := n, select := page.select,
          myntraData := page.myntraData } = scrape_platform key query page) := by
  constructor
  · intro key query page h
    simp only [scrape_platform]
    cases hc : findConfig key with
    | none => rfl
    | some cfg => simp [h]
  · intro key query page n
    rfl

/-- **C6 witness**: a 503 response on a large body contributes zero
listings. -/
theorem fetch_success_requires_only_status_200_witness :
    scrape_platform "amazon" "tv"
      { statusCode := 503, bodyLen := 5000, select := fun _ => [],
        myntraData := [] } = [] :=
  fetch_success_requires_only_status_200.1 "amazon" "tv"
    { statusCode := 503, bodyLen := 5000, select := fun _ => [],
      myntraData := [] }
    (by decide)

/-! ## C7: per-platform and per-item failures stay local -/

/-- **C7.** An unknown platform key makes `scrape_platform` return the
empty list (the platform is skipped, no error escapes), and in
`scrape_all_platforms` each platform contributes exactly its own successful
results — a platform whose scrape raises contributes nothing while the
listings collected from every other platform are kept, and the collection
always completes with a well-defined list. -/
theorem platform_failures_recovered_locally :
    (∀ key query page, findConfig key = none →
      scrape_platform key query page = []) ∧
    (∀ (query : String) (outcome : String → Except String (List Listing))
        (platforms : List String), platforms.isEmpty = false →
      scrape_all_platforms query outcome platforms =
        (platforms.map (fun p => ((outcome p).toOption).getD [])).flatten) := by
  constructor
  · intro key query page h
    simp only [scrape_platform, h]
  · intro query outcome platforms h
    simp only [scrape_all_platforms]
    rw [if_neg (by simp [h])]
    simpa using scrape_collect_loop outcome platforms []

/-- **C7 witness**: the unknown key "ebay" is skipped, and an exception on
the middle platform of three leaves the other two platforms' listings
intact. -/
theorem platform_failures_recovered_locally_witness :
    scrape_platform "ebay" "tv"
      { statusCode := 200, bodyLen := 5000, select := fun _ => [],
        myntraData := [] } = [] ∧
    scrape_all_platforms "tv"
      (fun p =>
        if p = "flipkart" then Except.error "boom"
        else Except.ok [Listing.mk 10 "T" p "u" none])
      ["amazon", "flipkart", "croma"] =
      [Listing.mk 10 "T" "amazon" "u" none,
       Listing.mk 10 "T" "croma" "u" none] := by
  constructor
  · exact platform_failures_recovered_locally.1 "ebay" "tv"
      { statusCode := 200, bodyLen := 5000, select := fun _ => [],
        myntraData := [] } (by decide)
  · rw [platform_failures_recovered_locally.2 "tv"
      (fun p =>
        if p = "flipkart" then Except.error "boom"
        else Except.ok [Listing.mk 10 "T" p "u" none])
      ["amazon", "flipkart", "croma"] (by decide)]
    decide

/-! ## C8: the platform list is clamped to at most 3 -/

/-- **C8.** The platform list a search actually scrapes — reported verbatim
as `platforms_searched` — never exceeds 3 entries: a request (or category
table) supplying more than 3 platforms is silently clamped to its first 3
in order. -/
theorem platforms_searched_clamped_to_three :
    (∀ custom name, (resolve_platforms custom name).length ≤ 3) ∧
    (∀ (l : List String) (name : String), 3 < l.length →
      resolve_platforms (some l) name = l.take 3) ∧
    (∀ raw custom outcome status resp,
      scrape_prices_endpoint raw custom outcome = (status, some resp) →
      resp.platforms_searched = resolve_platforms custom (pyStrip raw)) := by
  refine ⟨?_, ?_, ?_⟩
  · intro custom name
    simp only [resolve_platforms]
    split
    next h => simp [List.length_take]
    next h => omega
  · intro l name h3
    have hne : l.isEmpty = false := by
      cases l with
      | nil => simp at h3
      | cons a as => rfl
    simp only [resolve_platforms]
    have hl : (if l.isEmpty = true then get_relevant_platforms name else l) = l :=
      if_neg (by simp [hne])
    rw [hl, if_pos (show l.length > 3 from h3)]
  · intro raw custom outcome status resp
    simp only [scrape_prices_endpoint]
    by_cases hname : pyStrip raw = ""
    · rw [if_pos hname]
      intro heq
      exact absurd (congrArg Prod.snd heq) (by simp)
    · rw [if_neg hname]
      intro heq
      have hresp := congrArg Prod.snd heq
      simp only at hresp
      have hr := Option.some.inj hresp
      subst hr
      rfl

/-- **C8 witness**: a request naming five platforms is clamped to the first
three. -/
theorem platforms_searched_clamped_to_three_witness :
    resolve_platforms (some ["a", "b", "c", "d", "e"]) "milk" =
      ["a", "b", "c"] ∧
    (resolve_platforms (some ["a", "b", "c", "d", "e"]) "milk").length ≤ 3 :=
  ⟨platforms_searched_clamped_to_three.2.1 ["a", "b", "c", "d", "e"] "milk"
      (by decide),
   platforms_searched_clamped_to_three.1 (some ["a", "b", "c", "d", "e"]) "milk"⟩
